import Mathlib

/-!
Shallow embedding of the k3s App Builder deployment pipeline
(`builder/main.py`, `builder/build_ops.py`, `builder/k8s_ops.py`).

The registry entry of one application is modelled by `AppEntry`; the
outcomes of the external collaborators (docker, kubectl) are supplied
through explicit "world" records, so every route becomes a pure function
from the entry, the world and the request parameters to the trace of
external actions, the emitted event stream and the resulting entry.
-/

namespace K3

/-- Default of the SERVER_IP environment variable in `main.py`. -/
def SERVER_IP : String := "127.0.0.1"

/-- Default of the REGISTRY_HOST environment variable in `build_ops.py`. -/
def REGISTRY_HOST : String := "localhost:5050"

/-- `_app_url` from `main.py`: preview hosts get a `-preview` suffix. -/
def app_url (app_name env : String) : String :=
  let suffix := if env = "preview" then "-preview" else ""
  "http://" ++ app_name ++ suffix ++ "." ++ SERVER_IP ++ ".nip.io/"

/-- One registry entry, the dict stored per application by `main.py`.
The `rollback_version` key is absent until the first publish; Python reads
it with `.get`, which yields `None` for an absent key, so an absent key and
an explicit `None` are observably the same and both are modelled `none`. -/
structure AppEntry where
  app_name : String
  template : String
  descr : String
  git_repo : String
  preview_version : Option String
  prod_version : Option String
  rollback_version : Option String
  preview_url : String
  prod_url : String
  created_at : String
  status : String
deriving DecidableEq, Repr

/-- Python truthiness of an optional string (`if not preview_version`):
`None` and the empty string are falsy. -/
def truthy : Option String → Bool
  | none => false
  | some s => if s = "" then false else true

/-- Wall-clock instant, the input of `make_version`. -/
structure UTCTime where
  year : Nat
  month : Nat
  day : Nat
  hour : Nat
  minute : Nat
  second : Nat
deriving DecidableEq, Repr

/-- Zero-padding of a numeric strftime field to a fixed width. -/
def zeroPad (width n : Nat) : String :=
  let s := toString n
  String.mk (List.replicate (width - s.length) '0' ++ s.data)

/-- `make_version` from `build_ops.py`: UTC now as `YYYYMMDD.HHMMSS`. -/
def make_version (t : UTCTime) : String :=
  zeroPad 4 t.year ++ zeroPad 2 t.month ++ zeroPad 2 t.day ++ "." ++
    zeroPad 2 t.hour ++ zeroPad 2 t.minute ++ zeroPad 2 t.second

theorem zeroPad_length (width n : Nat) : width ≤ (zeroPad width n).length := by
  unfold zeroPad
  show width ≤ (List.replicate (width - (toString n).length) '0' ++ (toString n).data).length
  rw [List.length_append, List.length_replicate]
  have hd : (toString n).data.length = (toString n).length := rfl
  omega

theorem make_version_length (t : UTCTime) : 4 ≤ (make_version t).length := by
  unfold make_version
  simp only [String.length_append]
  have h4 := zeroPad_length 4 t.year
  omega

theorem make_version_ne_empty (t : UTCTime) : make_version t ≠ "" := by
  intro h
  have h4 := make_version_length t
  rw [h] at h4
  have h0 : ("" : String).length = 0 := rfl
  omega

/-- External collaborator calls made by a route, in order. -/
inductive ExtAction where
  | syncWorkspace (app : String)
  | dockerBuild (image : String)
  | dockerPush (image : String)
  | deployApp (app env version : String)
  | rolloutStatusQ (app env : String)
  | setImage (app env version : String)
  | rolloutUndo (app env : String)
deriving DecidableEq, Repr

/-- An event put on the asyncio queue by the build worker thread. -/
inductive QEvent where
  | log (line : String)
  | done (version : String)
  | error (msg : String)
deriving DecidableEq, Repr

/-- An event delivered to the observer of the build SSE stream. -/
inductive SSE where
  | log (line : String)
  | done (version preview_url : String)
  | error (msg : String)
deriving DecidableEq, Repr

def isTerminalSSE : SSE → Bool
  | SSE.log _ => false
  | SSE.done _ _ => true
  | SSE.error _ => true

/-- Outcomes of the external processes a build invocation runs:
`syncErr` is the error of a failed `checkout_workspace`, `buildExit` and
`pushExit` the exit codes of docker build/push, `deployErr` the error of a
failed `kubectl apply`, `rolloutOk` the result of `rollout_status`. -/
structure BuildWorld where
  syncErr : Option String
  buildLogs : List String
  buildExit : Nat
  pushLogs : List String
  pushExit : Nat
  deployErr : Option String
  rolloutOk : Bool
deriving DecidableEq, Repr

/-- Result of running the `build_and_push` generator to completion: the
lines it yielded, and the BuildError message if it raised one. -/
inductive GenResult where
  | ok (lines : List String)
  | err (lines : List String) (msg : String)
deriving DecidableEq, Repr

def image_tag (app version : String) : String :=
  REGISTRY_HOST ++ "/" ++ app ++ ":" ++ version

def building_header (image : String) : String :=
  "=== Building " ++ image ++ " ===\n"

def pushing_header (image : String) : String :=
  "=== Pushing " ++ image ++ " ===\n"

def complete_line (image : String) : String :=
  "=== Build complete: " ++ image ++ " ===\n"

def build_failed_msg (code : Nat) : String :=
  "docker build failed (exit " ++ toString code ++ ")"

def push_failed_msg (code : Nat) : String :=
  "docker push failed (exit " ++ toString code ++ ")"

/-- `build_and_push` from `build_ops.py`: sync the workspace, docker build,
docker push; yields log lines and raises `BuildError` on a non-zero exit.
Returns the external calls made and the generator's outcome. -/
def build_and_push (app version : String) (w : BuildWorld) :
    List ExtAction × GenResult :=
  match w.syncErr with
  | some e => ([ExtAction.syncWorkspace app], GenResult.err [] e)
  | none =>
    let image := image_tag app version
    let pre := building_header image :: w.buildLogs
    let tr := [ExtAction.syncWorkspace app, ExtAction.dockerBuild image]
    if w.buildExit ≠ 0 then
      (tr, GenResult.err pre (build_failed_msg w.buildExit))
    else
      let pre2 := pre ++ pushing_header image :: w.pushLogs
      let tr2 := tr ++ [ExtAction.dockerPush image]
      if w.pushExit ≠ 0 then
        (tr2, GenResult.err pre2 (push_failed_msg w.pushExit))
      else
        (tr2, GenResult.ok (pre2 ++ [complete_line image]))

def deploying_line : String := "=== Deploying to preview ===\n"

/-- The `run_build` worker of the `/app/{name}/build` route: relays the
generator's lines as `log` events, then deploys to preview and waits for
the rollout, ending the queue with exactly one `done` or `error` event
(any exception becomes an `error` event). -/
def run_build (app version : String) (w : BuildWorld) :
    List ExtAction × List QEvent :=
  match build_and_push app version w with
  | (tr, GenResult.err lines msg) => (tr, lines.map QEvent.log ++ [QEvent.error msg])
  | (tr, GenResult.ok lines) =>
    let logs := (lines ++ [deploying_line]).map QEvent.log
    match w.deployErr with
    | some e =>
      (tr ++ [ExtAction.deployApp app "preview" version], logs ++ [QEvent.error e])
    | none =>
      let tr2 := tr ++ [ExtAction.deployApp app "preview" version,
                        ExtAction.rolloutStatusQ app "preview"]
      if w.rolloutOk then (tr2, logs ++ [QEvent.done version])
      else (tr2, logs ++ [QEvent.error "Rollout timed out"])

/-- The consumer loop of the `/app/{name}/build` route: forwards queue
events to the SSE stream, and on `done` records the new preview version
and status in the registry before emitting the terminal event. -/
def consume (name : String) (entry : AppEntry) : List QEvent → List SSE × AppEntry
  | [] => ([], entry)
  | QEvent.log s :: rest =>
    let r := consume name entry rest
    (SSE.log s :: r.1, r.2)
  | QEvent.done v :: _ =>
    ([SSE.done v (app_url name "preview")],
     { entry with preview_version := some v, status := "preview" })
  | QEvent.error m :: _ => ([SSE.error m], entry)

/-- The `/app/{name}/build` route (`build_app` in `main.py`) acting on one
application's registry entry: external calls, SSE stream, entry after. -/
def build_app (entry : AppEntry) (version : String) (w : BuildWorld) :
    List ExtAction × List SSE × AppEntry :=
  let r := run_build entry.app_name version w
  let c := consume entry.app_name entry r.2
  (r.1, c.1, c.2)

/-- All five external outcomes a successful build needs. -/
def buildSucceeds (w : BuildWorld) : Bool :=
  w.syncErr.isNone && (w.buildExit == 0) && (w.pushExit == 0) &&
    w.deployErr.isNone && w.rolloutOk

theorem consume_log_append (name : String) (entry : AppEntry)
    (ls : List String) (evs : List QEvent) :
    consume name entry (ls.map QEvent.log ++ evs) =
      (ls.map SSE.log ++ (consume name entry evs).1, (consume name entry evs).2) := by
  induction ls with
  | nil => simp [consume]
  | cons a rest ih => simp [consume, ih]

/-- What a build invocation leaves in the registry: the new preview version
and status exactly when every phase succeeded, the old entry otherwise. -/
theorem build_app_entry (e : AppEntry) (v : String) (w : BuildWorld) :
    (build_app e v w).2.2 =
      if buildSucceeds w then { e with preview_version := some v, status := "preview" }
      else e := by
  unfold build_app run_build build_and_push buildSucceeds
  cases hs : w.syncErr with
  | some err => simp [hs, consume_log_append, consume]
  | none =>
    by_cases hb : w.buildExit = 0
    · by_cases hp : w.pushExit = 0
      · cases hd : w.deployErr with
        | some err =>
          simp [hs, hb, hp, hd, consume_log_append, consume]
        | none =>
          cases hr : w.rolloutOk <;>
            simp [hs, hb, hp, hd, hr, consume_log_append, consume]
      · simp [hs, hb, hp, consume_log_append, consume]
    · simp [hs, hb, consume_log_append, consume]

/-- Outcomes of the external calls a publish (promotion) makes:
`deployErr` is the error of a failed `kubectl apply` to prod, `rolloutOk`
the result of `rollout_status`, `revertErr` the error of a failed
`set_image` during the automatic revert. -/
structure PublishWorld where
  deployErr : Option String
  rolloutOk : Bool
  revertErr : Option String
deriving DecidableEq, Repr

/-- What the `/app/{name}/publish` route reports. -/
inductive PublishOutcome where
  | noPreview
  | deployFailed (msg : String)
  | revertFailed (msg : String)
  | promotionFailed
  | success (version : String)
deriving DecidableEq, Repr

/-- The `/app/{name}/publish` route (`publish_app` in `main.py`) on one
application's entry: requires a truthy `preview_version` (HTTP 400
otherwise), deploys it to prod, waits for the rollout; on rollout failure
re-applies the previous prod version when one was live and raises HTTP 500
without saving; on success records prod/rollback versions and status. -/
def publish_app (entry : AppEntry) (w : PublishWorld) :
    List ExtAction × PublishOutcome × AppEntry :=
  let name := entry.app_name
  match entry.preview_version with
  | none => ([], PublishOutcome.noPreview, entry)
  | some pv =>
    if pv = "" then ([], PublishOutcome.noPreview, entry)
    else
      let current_prod := entry.prod_version
      let tr0 := [ExtAction.deployApp name "prod" pv]
      match w.deployErr with
      | some e => (tr0, PublishOutcome.deployFailed e, entry)
      | none =>
        let tr1 := tr0 ++ [ExtAction.rolloutStatusQ name "prod"]
        if w.rolloutOk then
          (tr1, PublishOutcome.success pv,
           { entry with prod_version := some pv,
                        rollback_version := current_prod,
                        status := "published" })
        else
          match current_prod with
          | some cp =>
            if cp = "" then (tr1, PublishOutcome.promotionFailed, entry)
            else
              let tr2 := tr1 ++ [ExtAction.setImage name "prod" cp]
              match w.revertErr with
              | some e => (tr2, PublishOutcome.revertFailed e, entry)
              | none => (tr2, PublishOutcome.promotionFailed, entry)
          | none => (tr1, PublishOutcome.promotionFailed, entry)

/-- Outcomes of the external calls a rollback makes: `applyErr` is the
error of a failed `set_image`/`rollout undo`, `rolloutOk` the result of
`rollout_status`. -/
structure RollbackWorld where
  applyErr : Option String
  rolloutOk : Bool
deriving DecidableEq, Repr

/-- What the `/app/{name}/rollback` route reports. -/
inductive RollbackOutcome where
  | applyFailed (msg : String)
  | result (ok : Bool)
deriving DecidableEq, Repr

/-- The `/app/{name}/rollback` route (`rollback_app` in `main.py`): with a
truthy `rollback_version` it re-applies that image and on rollout success
swaps it into `prod_version` and clears the token; otherwise it runs the
orchestrator's one-step `rollout undo` and never touches the registry. -/
def rollback_app (entry : AppEntry) (w : RollbackWorld) :
    List ExtAction × RollbackOutcome × AppEntry :=
  let name := entry.app_name
  match entry.rollback_version with
  | some rv =>
    if rv = "" then
      let tr := [ExtAction.rolloutUndo name "prod"]
      match w.applyErr with
      | some e => (tr, RollbackOutcome.applyFailed e, entry)
      | none =>
        (tr ++ [ExtAction.rolloutStatusQ name "prod"],
         RollbackOutcome.result w.rolloutOk, entry)
    else
      let tr := [ExtAction.setImage name "prod" rv]
      match w.applyErr with
      | some e => (tr, RollbackOutcome.applyFailed e, entry)
      | none =>
        let tr2 := tr ++ [ExtAction.rolloutStatusQ name "prod"]
        if w.rolloutOk then
          (tr2, RollbackOutcome.result true,
           { entry with prod_version := some rv, rollback_version := none })
        else (tr2, RollbackOutcome.result false, entry)
  | none =>
    let tr := [ExtAction.rolloutUndo name "prod"]
    match w.applyErr with
    | some e => (tr, RollbackOutcome.applyFailed e, entry)
    | none =>
      (tr ++ [ExtAction.rolloutStatusQ name "prod"],
       RollbackOutcome.result w.rolloutOk, entry)

/-- The registry entry written by the `/create` route in `main.py`. -/
def create_app (name template descr created_at : String) : AppEntry :=
  { app_name := name
  , template := template
  , descr := descr
  , git_repo := "/var/git/apps/" ++ name ++ ".git"
  , preview_version := none
  , prod_version := none
  , rollback_version := none
  , preview_url := app_url name "preview"
  , prod_url := app_url name "prod"
  , created_at := created_at
  , status := "created" }

/-- One route invocation on one application, with the outcomes of its
external calls fixed by the attached world. -/
inductive Op where
  | create (template descr created_at : String)
  | build (t : UTCTime) (w : BuildWorld)
  | publish (w : PublishWorld)
  | rollback (w : RollbackWorld)

/-- The registry entry for `name` after one route invocation: `create` on
an existing entry raises HTTP 409 and changes nothing; build / publish /
rollback on a missing entry raise HTTP 404. -/
def applyOp (name : String) (s : Option AppEntry) : Op → Option AppEntry
  | Op.create tpl d ts =>
    match s with
    | none => some (create_app name tpl d ts)
    | some e => some e
  | Op.build t w =>
    match s with
    | none => none
    | some e => some (build_app e (make_version t) w).2.2
  | Op.publish w =>
    match s with
    | none => none
    | some e => some (publish_app e w).2.2
  | Op.rollback w =>
    match s with
    | none => none
    | some e => some (rollback_app e w).2.2

/-- The registry entry for `name` after a sequence of route invocations. -/
def runOps (name : String) (s : Option AppEntry) : List Op → Option AppEntry
  | [] => s
  | op :: rest => runOps name (applyOp name s op) rest

/-- All three external outcomes a successful publish needs. -/
def publishSucceeds (e : AppEntry) (w : PublishWorld) : Bool :=
  truthy e.preview_version && w.deployErr.isNone && w.rolloutOk

/-- What a publish leaves in the registry: the promotion is recorded
exactly when the preview version is truthy, the prod deploy does not raise
and the rollout succeeds; any failure leaves the entry untouched. -/
theorem publish_app_entry (e : AppEntry) (w : PublishWorld) :
    (publish_app e w).2.2 =
      if publishSucceeds e w then
        { e with prod_version := e.preview_version,
                 rollback_version := e.prod_version,
                 status := "published" }
      else e := by
  unfold publish_app publishSucceeds truthy
  cases hpv : e.preview_version with
  | none => simp
  | some pv =>
    by_cases hpe : pv = ""
    · simp [hpe]
    · cases hd : w.deployErr with
      | some err => simp [hpe]
      | none =>
        cases hr : w.rolloutOk with
        | true => simp [hpe, hpv]
        | false =>
          cases hcp : e.prod_version with
          | none => simp [hpe]
          | some cp =>
            by_cases hce : cp = ""
            · simp [hpe, hce]
            · cases hv : w.revertErr <;> simp [hpe, hce]

/-- All three external outcomes a registry-updating rollback needs. -/
def rollbackSucceeds (e : AppEntry) (w : RollbackWorld) : Bool :=
  truthy e.rollback_version && w.applyErr.isNone && w.rolloutOk

/-- What a rollback leaves in the registry: the swap is recorded exactly
when the rollback token is truthy, the image apply does not raise and the
rollout succeeds; in every other case the entry is untouched. -/
theorem rollback_app_entry (e : AppEntry) (w : RollbackWorld) :
    (rollback_app e w).2.2 =
      if rollbackSucceeds e w then
        { e with prod_version := e.rollback_version, rollback_version := none }
      else e := by
  unfold rollback_app rollbackSucceeds truthy
  cases hrv : e.rollback_version with
  | none => cases ha : w.applyErr <;> simp
  | some rv =>
    by_cases hre : rv = ""
    · cases ha : w.applyErr <;> simp [hre]
    · cases ha : w.applyErr with
      | some err => simp [hre]
      | none => cases hr : w.rolloutOk <;> simp [hre]

/-- Versions stored in a reachable entry are never the empty string, a
rollback token implies a live prod version, and a non-null prod version
only occurs in status `preview` or `published`. -/
def Inv (e : AppEntry) : Prop :=
  (∀ v, e.preview_version = some v → v ≠ "") ∧
  (∀ v, e.prod_version = some v → v ≠ "") ∧
  (∀ v, e.rollback_version = some v → v ≠ "") ∧
  (e.rollback_version ≠ none → e.prod_version ≠ none) ∧
  (e.prod_version ≠ none → e.status = "preview" ∨ e.status = "published")

theorem inv_create (name tpl d ts : String) : Inv (create_app name tpl d ts) := by
  unfold Inv create_app
  simp

theorem inv_applyOp (name : String) (s : Option AppEntry) (op : Op) (e2 : AppEntry)
    (hs : ∀ e0, s = some e0 → Inv e0) (h : applyOp name s op = some e2) : Inv e2 := by
  cases op with
  | create tpl d ts =>
    cases s with
    | none =>
      simp [applyOp] at h
      rw [← h]
      exact inv_create name tpl d ts
    | some e0 =>
      simp [applyOp] at h
      rw [← h]
      exact hs e0 rfl
  | build t w =>
    cases s with
    | none => simp [applyOp] at h
    | some e0 =>
      have h0 := hs e0 rfl
      simp [applyOp, build_app_entry] at h
      by_cases hb : buildSucceeds w = true
      · rw [if_pos hb] at h
        obtain ⟨i1, i2, i3, i4, i5⟩ := h0
        rw [← h]
        refine ⟨?_, ?_, ?_, ?_, ?_⟩
        · intro v hv
          simp at hv
          rw [← hv]
          exact make_version_ne_empty t
        · exact i2
        · exact i3
        · exact i4
        · intro _
          left
          rfl
      · rw [if_neg hb] at h
        rw [← h]
        exact h0
  | publish w =>
    cases s with
    | none => simp [applyOp] at h
    | some e0 =>
      have h0 := hs e0 rfl
      simp [applyOp, publish_app_entry] at h
      by_cases hb : publishSucceeds e0 w = true
      · rw [if_pos hb] at h
        obtain ⟨i1, i2, i3, i4, i5⟩ := h0
        have hpv : ∃ pv, e0.preview_version = some pv ∧ pv ≠ "" := by
          unfold publishSucceeds truthy at hb
          cases hx : e0.preview_version with
          | none => rw [hx] at hb; simp at hb
          | some pv =>
            refine ⟨pv, rfl, ?_⟩
            rw [hx] at hb
            intro he
            rw [he] at hb
            simp at hb
        obtain ⟨pv, hpv1, hpv2⟩ := hpv
        rw [← h]
        refine ⟨?_, ?_, ?_, ?_, ?_⟩
        · exact i1
        · intro v hv
          simp [hpv1] at hv
          rw [← hv]
          exact hpv2
        · intro v hv
          simp at hv
          exact i2 v hv
        · intro _
          simp [hpv1]
        · intro _
          right
          rfl
      · rw [if_neg hb] at h
        rw [← h]
        exact h0
  | rollback w =>
    cases s with
    | none => simp [applyOp] at h
    | some e0 =>
      have h0 := hs e0 rfl
      simp [applyOp, rollback_app_entry] at h
      by_cases hb : rollbackSucceeds e0 w = true
      · rw [if_pos hb] at h
        obtain ⟨i1, i2, i3, i4, i5⟩ := h0
        have hrv : ∃ rv, e0.rollback_version = some rv ∧ rv ≠ "" := by
          unfold rollbackSucceeds truthy at hb
          cases hx : e0.rollback_version with
          | none => rw [hx] at hb; simp at hb
          | some rv =>
            refine ⟨rv, rfl, ?_⟩
            rw [hx] at hb
            intro he
            rw [he] at hb
            simp at hb
        obtain ⟨rv, hrv1, hrv2⟩ := hrv
        rw [← h]
        refine ⟨?_, ?_, ?_, ?_, ?_⟩
        · exact i1
        · intro v hv
          simp [hrv1] at hv
          rw [← hv]
          exact hrv2
        · intro v hv
          simp at hv
        · intro hc
          simp at hc
        · intro _
          apply i5
          intro hc
          exact (i4 (by rw [hrv1]; simp)) hc
      · rw [if_neg hb] at h
        rw [← h]
        exact h0

theorem inv_runOps (name : String) (ops : List Op) (s : Option AppEntry)
    (e : AppEntry) (hs : ∀ e0, s = some e0 → Inv e0)
    (h : runOps name s ops = some e) : Inv e := by
  induction ops generalizing s with
  | nil =>
    simp [runOps] at h
    exact hs e (by rw [h])
  | cons op rest ih =>
    exact ih (applyOp name s op)
      (fun e0 he0 => inv_applyOp name s op e0 hs he0) h

theorem inv_reach (name : String) (ops : List Op) (e : AppEntry)
    (h : runOps name none ops = some e) : Inv e :=
  inv_runOps name ops none e (fun _ he => by simp at he) h

/-- First-match association lookup, the map semantics of a file tree. -/
def alookup {α : Type} (k : String) : List (String × α) → Option α
  | [] => none
  | kv :: rest => if kv.1 = k then some kv.2 else alookup k rest

theorem alookup_append {α : Type} (k : String) (a b : List (String × α)) :
    alookup k (a ++ b) =
      match alookup k a with
      | some v => some v
      | none => alookup k b := by
  induction a with
  | nil => simp [alookup]
  | cons kv rest ih =>
    by_cases hk : kv.1 = k
    · simp [alookup, hk]
    · simp [alookup, hk, ih]

theorem alookup_eq_none_of_not_mem {α : Type} (k : String)
    (l : List (String × α)) (h : k ∉ l.map Prod.fst) : alookup k l = none := by
  induction l with
  | nil => rfl
  | cons kv rest ih =>
    rw [List.map_cons, List.mem_cons] at h
    push_neg at h
    unfold alookup
    rw [if_neg (fun he => h.1 he.symm)]
    exact ih h.2

/-- Extensional equality of two file trees, the `git diff --cached
--quiet` test: the staged tree and HEAD hold the same files. -/
def treeEq (a b : List (String × String)) : Bool :=
  (a.map Prod.fst ++ b.map Prod.fst).all fun k => alookup k a == alookup k b

theorem treeEq_true_iff (a b : List (String × String)) :
    treeEq a b = true ↔ ∀ k, alookup k a = alookup k b := by
  unfold treeEq
  rw [List.all_eq_true]
  constructor
  · intro h k
    by_cases hk : k ∈ a.map Prod.fst ++ b.map Prod.fst
    · have := h k hk
      exact beq_iff_eq.mp this
    · simp at hk
      rw [alookup_eq_none_of_not_mem k a (by simp [hk.1]),
          alookup_eq_none_of_not_mem k b (by simp [hk.2])]
  · intro h k _
    exact beq_iff_eq.mpr (h k)

/-- The mutable checkout of one application: the working tree and the tree
of the last published revision (HEAD of the bare repo). `.git` metadata is
not part of either tree. -/
structure Workspace where
  tree : List (String × String)
  head : List (String × String)
deriving DecidableEq, Repr

/-- `write_files_to_workspace` from `build_ops.py` on a present workspace:
writes the given files over the working tree, stages everything, and
commits (and pushes) only when the staged tree differs from HEAD. The
Bool reports whether a commit was made. -/
def write_files (ws : Workspace) (files : List (String × String)) :
    Workspace × Bool :=
  let newTree := files ++ ws.tree
  if treeEq newTree ws.head then ({ tree := newTree, head := ws.head }, false)
  else ({ tree := newTree, head := newTree }, true)

def workspace_missing_msg (app_name : String) : String :=
  "Workspace not found: /var/git/apps/" ++ app_name ++ "-workspace"

/-- `write_files_to_workspace` as callable from the routes: raises
`RuntimeError` when the workspace directory does not exist. -/
def write_files_to_workspace (app_name : String) (ws : Option Workspace)
    (files : List (String × String)) : Except String (Workspace × Bool) :=
  match ws with
  | none => Except.error (workspace_missing_msg app_name)
  | some w => Except.ok (write_files w files)

/-- `get_workspace_files` from `build_ops.py`: the working tree's files,
or the empty mapping when the workspace directory does not exist. -/
def get_workspace_files (ws : Option Workspace) : List (String × String) :=
  match ws with
  | none => []
  | some w => w.tree

def unknown_template_msg (template : String) : String :=
  "Unknown template: " ++ template

/-- `scaffold_app` from `build_ops.py`: raises `ValueError` when no
template directory of that name exists; otherwise it deletes any existing
workspace, copies the template files in and makes (and pushes) the initial
commit. The Bool reports whether an existing workspace was replaced. -/
def scaffold_app (avail : List (String × List (String × String)))
    (ws : Option Workspace) (template : String) :
    Except String (Workspace × Bool) :=
  match alookup template avail with
  | none => Except.error (unknown_template_msg template)
  | some tfiles => Except.ok ({ tree := tfiles, head := tfiles }, ws.isSome)

theorem write_files_tree (ws : Workspace) (files : List (String × String)) :
    (write_files ws files).1.tree = files ++ ws.tree := by
  unfold write_files
  by_cases h : treeEq (files ++ ws.tree) ws.head <;> simp [h]

theorem write_files_head (ws : Workspace) (files : List (String × String)) :
    (write_files ws files).1.head =
      if treeEq (files ++ ws.tree) ws.head then ws.head else files ++ ws.tree := by
  unfold write_files
  by_cases h : treeEq (files ++ ws.tree) ws.head <;> simp [h]

theorem write_files_committed (ws : Workspace) (files : List (String × String)) :
    (write_files ws files).2 = !treeEq (files ++ ws.tree) ws.head := by
  unfold write_files
  by_cases h : treeEq (files ++ ws.tree) ws.head <;> simp [h]

/-- Writing the same file map twice changes no lookup: the second staged
tree agrees with the first one on every path. -/
theorem alookup_write_twice (k : String) (files t : List (String × String)) :
    alookup k (files ++ (files ++ t)) = alookup k (files ++ t) := by
  rw [alookup_append, alookup_append]
  cases h : alookup k files <;> simp

def isTerminalQ : QEvent → Bool
  | QEvent.log _ => false
  | QEvent.done _ => true
  | QEvent.error _ => true

/-- The worker of a build invocation puts zero or more `log` events on the
queue followed by exactly one terminal event. -/
theorem run_build_shape (app version : String) (w : BuildWorld) :
    ∃ (ls : List String) (qt : QEvent),
      (run_build app version w).2 = ls.map QEvent.log ++ [qt] ∧
      isTerminalQ qt = true := by
  unfold run_build build_and_push
  cases hs : w.syncErr with
  | some err => exact ⟨[], QEvent.error err, rfl, rfl⟩
  | none =>
    by_cases hb : w.buildExit ≠ 0
    · rw [if_pos hb]
      exact ⟨_, QEvent.error (build_failed_msg w.buildExit), rfl, rfl⟩
    · rw [if_neg hb]
      by_cases hp : w.pushExit ≠ 0
      · rw [if_pos hp]
        exact ⟨_, QEvent.error (push_failed_msg w.pushExit), rfl, rfl⟩
      · rw [if_neg hp]
        cases hd : w.deployErr with
        | some err => exact ⟨_, QEvent.error err, rfl, rfl⟩
        | none =>
          cases hr : w.rolloutOk with
          | true => exact ⟨_, QEvent.done version, rfl, rfl⟩
          | false => exact ⟨_, QEvent.error "Rollout timed out", rfl, rfl⟩

-- Concrete fixtures used by witnesses and counterexamples.

def ts0 : String := "2026-01-01T00:00:00+00:00"

def t1 : UTCTime := ⟨2026, 1, 1, 0, 0, 0⟩

def t2 : UTCTime := ⟨2026, 1, 1, 1, 0, 0⟩

def okBuildWorld : BuildWorld := ⟨none, [], 0, [], 0, none, true⟩

def failBuildWorld : BuildWorld := ⟨none, ["error: boom\n"], 1, [], 0, none, true⟩

def okPubWorld : PublishWorld := ⟨none, true, none⟩

def failPubWorld : PublishWorld := ⟨none, false, none⟩

def okRbWorld : RollbackWorld := ⟨none, true⟩

def demoEntry : AppEntry := create_app "demo" "simple-api" "" ts0

def demoBuilt : AppEntry := (build_app demoEntry (make_version t1) okBuildWorld).2.2

def demoPublished : AppEntry := (publish_app demoBuilt okPubWorld).2.2

def demoRebuilt : AppEntry :=
  (build_app demoPublished (make_version t2) okBuildWorld).2.2

def demoTwice : AppEntry := (publish_app demoRebuilt okPubWorld).2.2

def opsBuilt : List Op := [Op.create "simple-api" "" ts0, Op.build t1 okBuildWorld]

def opsPublished : List Op := opsBuilt ++ [Op.publish okPubWorld]

def opsRebuilt : List Op := opsPublished ++ [Op.build t2 okBuildWorld]

def opsTwice : List Op := opsRebuilt ++ [Op.publish okPubWorld]

-- ---------------------------------------------------------------------------
-- Claims
-- ---------------------------------------------------------------------------

/-- C1 (counterexample): a fully successful build — the stream ends in the
`done` event — records `status = "preview"` in the registry, not the
spec's literal `"built-preview"`. -/
theorem build_status_literal_cx :
    (build_app demoEntry "20260101.000000" okBuildWorld).2.1.getLast? =
      some (SSE.done "20260101.000000" (app_url "demo" "preview")) ∧
    (build_app demoEntry "20260101.000000" okBuildWorld).2.2.preview_version =
      some "20260101.000000" ∧
    (build_app demoEntry "20260101.000000" okBuildWorld).2.2.status = "preview" ∧
    (build_app demoEntry "20260101.000000" okBuildWorld).2.2.status ≠
      "built-preview" := by
  refine ⟨rfl, rfl, rfl, ?_⟩
  decide

/-- C1 (amended): a build invocation in which sync, docker build, docker
push, the preview deploy and the rollout wait all succeed records
`preview_version = version` and `status = "preview"` (the code's literal
for the spec's built-preview state) in the application's registry entry. -/
theorem build_success_records (e : AppEntry) (v : String) (w : BuildWorld)
    (hw : buildSucceeds w = true) :
    (build_app e v w).2.2.preview_version = some v ∧
    (build_app e v w).2.2.status = "preview" := by
  rw [build_app_entry, if_pos hw]
  exact ⟨rfl, rfl⟩

/-- C1 witness: the success hypothesis is satisfiable. -/
theorem build_success_records_witness :
    (build_app demoEntry "20260101.000000" okBuildWorld).2.2.preview_version =
      some "20260101.000000" :=
  (build_success_records demoEntry "20260101.000000" okBuildWorld rfl).1

/-- C2: on a reachable registry entry, publish refuses a null
`preview_version` (NothingToPromote, changing nothing), and when the prod
rollout succeeds it records `prod_version = preview_version`,
`rollback_version` = the prod version current just before the call, and
`status = "published"`. -/
theorem publish_requires_and_records (name : String) (ops : List Op)
    (e : AppEntry) (w : PublishWorld)
    (hre : runOps name none ops = some e) :
    (e.preview_version = none →
      publish_app e w = ([], PublishOutcome.noPreview, e)) ∧
    (∀ v, e.preview_version = some v → w.deployErr = none → w.rolloutOk = true →
      (publish_app e w).2.1 = PublishOutcome.success v ∧
      (publish_app e w).2.2.prod_version = some v ∧
      (publish_app e w).2.2.rollback_version = e.prod_version ∧
      (publish_app e w).2.2.status = "published") := by
  obtain ⟨i1, _, _, _, _⟩ := inv_reach name ops e hre
  constructor
  · intro hnone
    unfold publish_app
    rw [hnone]
  · intro v hv hd hr
    have hvne : v ≠ "" := i1 v hv
    unfold publish_app
    rw [hv]
    simp [hvne, hd, hr]

/-- C2 witness: the hypotheses are satisfiable on the demo run. -/
theorem publish_requires_and_records_witness :
    (publish_app demoBuilt okPubWorld).2.2.status = "published" :=
  ((publish_requires_and_records "demo" opsBuilt demoBuilt okPubWorld rfl).2
    (make_version t1) rfl rfl rfl).2.2.2

/-- C3: when the prod rollout of a promotion fails and a previous prod
version was live, that version is re-applied exactly once, the route
reports PromotionFailed (HTTP 500), and the registry entry is byte-for-byte
the one from before the call. -/
theorem publish_failure_reverts (name : String) (ops : List Op) (e : AppEntry)
    (w : PublishWorld) (v p : String)
    (hre : runOps name none ops = some e)
    (hpv : e.preview_version = some v)
    (hp : e.prod_version = some p)
    (hd : w.deployErr = none)
    (hr : w.rolloutOk = false)
    (hv : w.revertErr = none) :
    (publish_app e w).1 = [ExtAction.deployApp e.app_name "prod" v,
                           ExtAction.rolloutStatusQ e.app_name "prod",
                           ExtAction.setImage e.app_name "prod" p] ∧
    (publish_app e w).1.count (ExtAction.setImage e.app_name "prod" p) = 1 ∧
    (publish_app e w).2.1 = PublishOutcome.promotionFailed ∧
    (publish_app e w).2.2 = e := by
  obtain ⟨i1, i2, _, _, _⟩ := inv_reach name ops e hre
  have hvne : v ≠ "" := i1 v hpv
  have hpne : p ≠ "" := i2 p hp
  have htr : (publish_app e w).1 =
      [ExtAction.deployApp e.app_name "prod" v,
       ExtAction.rolloutStatusQ e.app_name "prod",
       ExtAction.setImage e.app_name "prod" p] := by
    unfold publish_app
    rw [hpv]
    simp [hvne, hpne, hd, hr, hp, hv]
  refine ⟨htr, ?_, ?_, ?_⟩
  · rw [htr]
    simp [List.count_cons]
  · unfold publish_app
    rw [hpv]
    simp [hvne, hpne, hd, hr, hp, hv]
  · unfold publish_app
    rw [hpv]
    simp [hvne, hpne, hd, hr, hp, hv]

/-- C3 witness: the failure hypotheses are satisfiable on the demo run. -/
theorem publish_failure_reverts_witness :
    (publish_app demoRebuilt failPubWorld).2.2 = demoRebuilt :=
  (publish_failure_reverts "demo" opsRebuilt demoRebuilt failPubWorld
    (make_version t2) (make_version t1) rfl rfl rfl rfl rfl rfl).2.2.2

/-- C4: on a reachable entry whose `rollback_version` is set, rollback
re-applies exactly that version and updates the registry — `prod_version`
becomes the token and the token is cleared — exactly when the rollout
succeeds; with no token it calls the orchestrator's one-step undo and the
registry entry is unchanged whatever the rollout result. -/
theorem rollback_token_and_undo (name : String) (ops : List Op) (e : AppEntry)
    (w : RollbackWorld)
    (hre : runOps name none ops = some e)
    (ha : w.applyErr = none) :
    (∀ rv, e.rollback_version = some rv →
      (rollback_app e w).1 = [ExtAction.setImage e.app_name "prod" rv,
                              ExtAction.rolloutStatusQ e.app_name "prod"] ∧
      (w.rolloutOk = true →
        (rollback_app e w).2.2 =
          { e with prod_version := some rv, rollback_version := none }) ∧
      (w.rolloutOk = false → (rollback_app e w).2.2 = e)) ∧
    (e.rollback_version = none →
      (rollback_app e w).1 = [ExtAction.rolloutUndo e.app_name "prod",
                              ExtAction.rolloutStatusQ e.app_name "prod"] ∧
      (rollback_app e w).2.2 = e) := by
  obtain ⟨_, _, i3, _, _⟩ := inv_reach name ops e hre
  constructor
  · intro rv hrv
    have hrne : rv ≠ "" := i3 rv hrv
    unfold rollback_app
    rw [hrv, ha]
    refine ⟨?_, ?_, ?_⟩
    · cases hok : w.rolloutOk <;> simp [hrne, hok]
    · intro hok
      simp [hrne, hok]
    · intro hok
      simp [hrne, hok]
  · intro hrv
    unfold rollback_app
    rw [hrv]
    simp [ha]

/-- C4 witness: a second promotion leaves a rollback token, and rolling it
back restores the first version and clears the token. -/
theorem rollback_token_and_undo_witness :
    (rollback_app demoTwice okRbWorld).2.2 =
      { demoTwice with prod_version := some (make_version t1),
                       rollback_version := none } :=
  (((rollback_token_and_undo "demo" opsTwice demoTwice okRbWorld rfl rfl).1
    (make_version t1) rfl).2.1) rfl

/-- C5: a build whose docker build exits non-zero emits its log lines and
then the BuildError terminal event, never calls docker push or the deploy
or rollout of the preview environment, and leaves the registry entry
exactly as it was (so `preview_version` is not advanced). -/
theorem build_failure_aborts (e : AppEntry) (v : String) (w : BuildWorld)
    (hs : w.syncErr = none) (hb : w.buildExit ≠ 0) :
    (build_app e v w).2.2 = e ∧
    (build_app e v w).1 = [ExtAction.syncWorkspace e.app_name,
                           ExtAction.dockerBuild (image_tag e.app_name v)] ∧
    (build_app e v w).2.1 =
      (building_header (image_tag e.app_name v) :: w.buildLogs).map SSE.log ++
        [SSE.error (build_failed_msg w.buildExit)] := by
  unfold build_app run_build build_and_push
  rw [hs]
  simp [hb, consume_log_append, consume]

/-- C5 witness: the failing-build hypotheses are satisfiable. -/
theorem build_failure_aborts_witness :
    (build_app demoEntry "20260101.000000" failBuildWorld).2.2 = demoEntry :=
  (build_failure_aborts demoEntry "20260101.000000" failBuildWorld rfl
    (by decide)).1

/-- C6: applyFiles overwrites the working tree with the given files, and
commits exactly when the resulting tree differs (as a path-to-content map)
from the committed revision; running it twice with the same files never
commits the second time, so two identical calls commit at most once. -/
theorem applyFiles_idempotent (ws : Workspace) (files : List (String × String)) :
    (write_files ws files).1.tree = files ++ ws.tree ∧
    ((write_files ws files).2 = true ↔
      ¬ ∀ k, alookup k (files ++ ws.tree) = alookup k ws.head) ∧
    (write_files (write_files ws files).1 files).2 = false := by
  refine ⟨write_files_tree ws files, ?_, ?_⟩
  · rw [write_files_committed, ← treeEq_true_iff]
    cases treeEq (files ++ ws.tree) ws.head <;> simp
  · rw [write_files_committed, write_files_tree, write_files_head]
    by_cases h1 : treeEq (files ++ ws.tree) ws.head
    · rw [if_pos h1]
      have : treeEq (files ++ (files ++ ws.tree)) ws.head = true := by
        rw [treeEq_true_iff]
        intro k
        rw [alookup_write_twice]
        exact (treeEq_true_iff _ _).mp h1 k
      rw [this]
      rfl
    · rw [if_neg h1]
      have : treeEq (files ++ (files ++ ws.tree)) (files ++ ws.tree) = true := by
        rw [treeEq_true_iff]
        intro k
        exact alookup_write_twice k files ws.tree
      rw [this]
      rfl

/-- C7: the SSE stream an observer of one build invocation receives is
zero or more `log` events followed by exactly one terminal (`done` or
`error`) event, in production order, with nothing after the terminal. -/
theorem build_event_stream_wellformed (e : AppEntry) (v : String)
    (w : BuildWorld) :
    ∃ (logs : List String) (t : SSE),
      (build_app e v w).2.1 = logs.map SSE.log ++ [t] ∧
      isTerminalSSE t = true := by
  obtain ⟨ls, qt, hsh, hterm⟩ := run_build_shape e.app_name v w
  simp only [build_app]
  rw [hsh, consume_log_append]
  cases qt with
  | log s => simp [isTerminalQ] at hterm
  | done ver =>
    exact ⟨ls, SSE.done ver (app_url e.app_name "preview"), by simp [consume], rfl⟩
  | error m =>
    exact ⟨ls, SSE.error m, by simp [consume], rfl⟩

/-- C8 (counterexample): create, build, publish, then build again — a
perfectly ordinary sequence — leaves `prod_version` non-null while
`status` is `"preview"`, not `"published"`. -/
theorem prod_version_status_cx :
    (runOps "demo" none opsRebuilt).map (fun x => (x.prod_version, x.status)) =
      some (some "20260101.000000", "preview") ∧
    ("preview" : String) ≠ "published" := by
  refine ⟨rfl, ?_⟩
  decide

/-- C8 (amended): in every reachable registry state, `prod_version` is
non-null only when `status` is `"published"` or `"preview"` — once an
application has been published, a later successful build moves `status`
back to `"preview"` while `prod_version` stays set. -/
theorem prod_version_status_inv (name : String) (ops : List Op) (e : AppEntry)
    (hre : runOps name none ops = some e) (hp : e.prod_version ≠ none) :
    e.status = "preview" ∨ e.status = "published" :=
  (inv_reach name ops e hre).2.2.2.2 hp

/-- C8 witness: a published entry is reachable and has non-null prod. -/
theorem prod_version_status_inv_witness :
    demoRebuilt.status = "preview" ∨ demoRebuilt.status = "published" :=
  prod_version_status_inv "demo" opsRebuilt demoRebuilt rfl (by decide)

def tmplAvail : List (String × List (String × String)) :=
  [("simple-api", [("app.py", "import flask")])]

def wsOld : Workspace := { tree := [("old.txt", "x")], head := [("old.txt", "x")] }

/-- C9 (counterexample): scaffolding a known template over an existing
workspace does not fail with WorkspaceConflict — it succeeds, replacing
the workspace with the template's files. -/
theorem scaffold_replaces_cx :
    scaffold_app tmplAvail (some wsOld) "simple-api" =
      Except.ok ({ tree := [("app.py", "import flask")],
                   head := [("app.py", "import flask")] }, true) ∧
    (scaffold_app tmplAvail (some wsOld) "simple-api").isOk = true := by
  exact ⟨rfl, rfl⟩

/-- C9 (amended): scaffold fails with UnknownTemplate exactly when no
template of that kind exists; when the template is known it always
succeeds, replacing (rather than rejecting) any existing workspace with a
fresh checkout of the template's files. -/
theorem scaffold_behavior (avail : List (String × List (String × String)))
    (ws : Option Workspace) (template : String) :
    (alookup template avail = none →
      scaffold_app avail ws template =
        Except.error (unknown_template_msg template)) ∧
    (∀ tfiles, alookup template avail = some tfiles →
      scaffold_app avail ws template =
        Except.ok ({ tree := tfiles, head := tfiles }, ws.isSome)) := by
  constructor
  · intro h
    unfold scaffold_app
    rw [h]
  · intro tf h
    unfold scaffold_app
    rw [h]

/-- C10: on a missing workspace the two sides of the public interface
disagree: the snapshot operation returns the empty mapping while
applyFiles raises `RuntimeError`. -/
theorem missing_workspace_divergence (app_name : String)
    (files : List (String × String)) :
    get_workspace_files none = ([] : List (String × String)) ∧
    write_files_to_workspace app_name none files =
      Except.error (workspace_missing_msg app_name) :=
  ⟨rfl, rfl⟩

end K3
